import Mathlib

/-!
Verification of the attachment-supervisor core of `pypicframe.py`.

The Python source is shallowly embedded below.  Module-level mutable state
(`status`, `GUI_pid`) becomes an explicit state record; each iteration of the
`while True:` supervisor loop (source lines 213-261) becomes one application of
a pure `step` function that consumes the cycle's fresh OS observations
(`lsblk` output, mount diagnostics, `os.listdir("/mnt")`, pids) and produces
the next state together with the list of externally visible actions the cycle
performs (kills, spawns, logs, sleeps, mount/umount invocations).  Exceptions
that the Python code does not catch are modelled with `Except`: an `error`
result of `step` is an exception escaping the loop body, terminating the
supervisor.
-/

namespace PPF

/-- `leadsWith needle hay` is true when `needle` is a prefix of `hay`
(character lists). Helper for the Python substring test. -/
def leadsWith : List Char → List Char → Bool
  | [], _ => true
  | _ :: _, [] => false
  | a :: as, b :: bs => a == b && leadsWith as bs

/-- `hasSub needle hay`: `needle` occurs contiguously inside `hay`.
Embeds Python's `needle in hay` on strings. -/
def hasSub (needle : List Char) : List Char → Bool
  | [] => leadsWith needle []
  | c :: t => leadsWith needle (c :: t) || hasSub needle t

/-- Python `needle in hay` for `String`s. -/
def strContains (hay needle : String) : Bool :=
  hasSub needle.toList hay.toList

/-! ## Mount controller (`__mount__`, source lines 160-173)

`__mount__` reads the stderr of `sudo mount` and raises `Exception` when the
text contains "already mounted" (checked first), `OSError` when it contains
"does not exist"; otherwise it returns normally (the exit code is ignored).
The three outcomes are the three constructors below. -/

inductive MountResult where
  | success
  | alreadyMounted
  | vanished
  deriving DecidableEq, Repr

/-- Outcome of `__mount__` as a function of the diagnostic text `out`
(source lines 169-173; the "already mounted" test comes first). -/
def mountOutcome (out : String) : MountResult :=
  if strContains out "already mounted" then .alreadyMounted
  else if strContains out "does not exist" then .vanished
  else .success

/-! ## Content-probe setup threshold (source lines 462-473)

In the child, when the index is empty and no mode flag was given, the code
counts how many of the five rating-bucket directories `"x"`, `"xx"`, ...,
`"xxxxx"` are absent from `os.listdir("/mnt")`, adds one more when
`/mnt/settings.json` does not exist, and forces setup mode (`override = 3`)
when the total is `>= 5`. -/

def rating_buckets : List String := ["x", "xx", "xxx", "xxxx", "xxxxx"]

/-- The `total` counter of source lines 465-471: missing rating-bucket
directories among the top-level listing `ls`, plus one when the settings
file does not exist. -/
def setupTotal (ls : List String) (settingsExists : Bool) : Nat :=
  (rating_buckets.countP (fun b => !(ls.contains b))) +
    (if settingsExists then 0 else 1)

/-- Source line 472: the `total >= 5` comparison alone.  It is consulted
only under the line-462 guard (`index_main["size"] == 0 and override is
None`) — the full classification is `probeOverride` below. -/
def needsSetup (ls : List String) (settingsExists : Bool) : Bool :=
  decide (5 ≤ setupTotal ls settingsExists)

/-- The spec's phrasing: the number of missing items among the six expected
ones (five rating-bucket directories and the settings file). -/
def specMissingItems (ls : List String) (settingsExists : Bool) : Nat :=
  (rating_buckets.filter (fun b => !(ls.contains b))).length +
    (if settingsExists then 0 else 1)

/-- The override computation of source lines 462-479 as a function of the
index size `sz` reported by `index_folder`, the mode override `ov` already
selected (lines 450-460: `some 3` for `--setup`, `some 1` for `--no-device`
or an unreadable `/mnt`, otherwise `none`), the top-level listing and the
settings-file test.  The threshold check runs only under the line-462 guard
`index_main["size"] == 0 and override is None`; inside it, `total >= 5`
forces setup (`override = 3`), and otherwise the missing buckets and
settings file are created with the override left unset (lines 474-479).
Outside the guard the override is unchanged. -/
def probeOverride (sz : Nat) (ov : Option Nat) (ls : List String)
    (settingsExists : Bool) : Option Nat :=
  if sz = 0 ∧ ov = none then
    if needsSetup ls settingsExists then some 3 else none
  else ov

/-! ## Configuration bootstrap (source lines 53-77)

The startup code tries `/etc/pypicframe/internal_settings.json`, then
`./internal_settings.json`, falling back to a hard-coded dict when both are
absent; a `json.decoder.JSONDecodeError` from either file is caught by the
outer handler and also yields the hard-coded dict.  After choosing a dict it
reads `settings["part"]` and `settings["logfile"]`; a `KeyError` there is
caught by nothing and terminates the program. -/

/-- One candidate settings file: absent, present but not decodable JSON, or a
decoded JSON object whose `"part"`/`"logfile"` members are given (as
`Option`s, `none` meaning the key is absent). -/
inductive ConfFile where
  | missing
  | badJson
  | valid (partVal : Option String) (logVal : Option String)
  deriving DecidableEq, Repr

inductive LoadErr where
  | keyErr
  deriving DecidableEq, Repr

def defaultPart : String := "/dev/sde1"

def defaultLog : String := "./pypicframe.log"

/-- `settings["part"]` and `settings["logfile"]` lookups (source lines 67-68):
`KeyError` when a key is absent. -/
def extractKeys (p l : Option String) : Except LoadErr (String × String) :=
  match p with
  | none => .error .keyErr
  | some pv =>
    match l with
    | none => .error .keyErr
    | some lv => .ok (pv, lv)

/-- The whole settings bootstrap (source lines 53-77) as a function of the two
candidate files.  A decode error in either file reaches the outer
`except json.decoder.JSONDecodeError` and yields the defaults; a missing
`"part"`/`"logfile"` key raises `KeyError`, which nothing catches. -/
def loadSettings (etc loc : ConfFile) : Except LoadErr (String × String) :=
  match etc with
  | .valid p l => extractKeys p l
  | .badJson => .ok (defaultPart, defaultLog)
  | .missing =>
    match loc with
    | .valid p l => extractKeys p l
    | .badJson => .ok (defaultPart, defaultLog)
    | .missing => .ok (defaultPart, defaultLog)

/-! ## Supervisor loop (source lines 181-261)

The supervisor branch runs when `"--no-fork"` is not among the arguments; we
model the launch without extra CLI flags, so `sys.argv = [argv0]` and
`sys.argv[0] = argv0`.  The loop's mutable module-level variables are `status`
(0 = not attached, 1 = attached unmounted, 2 = attached and mounted) and
`GUI_pid` (initialized to the sentinel `-1`). -/

def argv0 : String := "pypicframe.py"

def sysArgv : List String := [argv0]

/-- One record of the parsed `lsblk --json --output path,mountpoint` output. -/
structure BlockDev where
  path : String
  mountpoint : Option String
  deriving DecidableEq, Repr

/-- Mutable loop state: the module-level `status` and `GUI_pid`. -/
structure St where
  status : Nat
  gui : Int
  deriving DecidableEq, Repr

/-- Externally visible effects of one loop iteration. -/
inductive Action where
  | umount
  | mountCall (dev : String) (mnt : String)
  | kill (pid : Int) (sig : Nat)
  | logMsg (msg : String)
  | logCmd (cmd : List String)
  | spawn (cmd : List String) (newPid : Int)
  | sleepSec (secs : Nat)
  deriving DecidableEq, Repr

/-- Uncaught exceptions escaping the loop body: `lsblk`/`json.loads` failures
(source lines 215-218) and `subprocess.check_call` failure in `__umount__`
(source lines 176-177, called at line 227). -/
inductive LoopErr where
  | enumFail
  | umountFail
  deriving DecidableEq, Repr

/-- The fresh observations a single poll cycle makes of the outside world. -/
structure Obs where
  /-- parsed `lsblk` output, or `error` when the command cannot be invoked or
  its output cannot be parsed -/
  lsblk : Except Unit (List BlockDev)
  /-- stderr text of the `sudo mount` invocation, should one happen -/
  mountErr : String
  /-- whether `sudo umount /mnt` exits 0, should it be invoked -/
  umountOk : Bool
  /-- `os.listdir("/mnt")`, should it be read -/
  mntListing : List String
  /-- whether `os.kill(pid, 15)` finds the process, should a kill happen -/
  pidExists : Bool
  /-- the pid `subprocess.Popen` returns, should a spawn happen -/
  newPid : Int

/-- `restart_child` (source lines 196-210): signal the old pid with SIGTERM
then SIGKILL (a `ProcessLookupError` is logged and swallowed), log the command
list, spawn the replacement, and return its pid. -/
def restart_child (pid : Option Int) (options : List String)
    (pidExists : Bool) (newPid : Int) : List Action × Int :=
  let killActs : List Action :=
    match pid with
    | none => []
    | some p =>
      if pidExists then [.kill p 15, .kill p 9]
      else [.kill p 15, .logMsg ("Process " ++ toString p ++ " not found.")]
  let command : List String := [argv0, "--no-fork"] ++ options
  (killActs ++ [.logCmd command, .spawn command newPid], newPid)

/-- The `for each in status_kernel: if each["path"] == part: index = each; break`
search of source lines 220-223. -/
def findDev (devs : List BlockDev) (pt : String) : Option BlockDev :=
  devs.find? (fun d => d.path == pt)

/-- Source lines 224-235: the device is not in the `lsblk` output.  When the
previous status was 2 the loop calls `__umount__("/mnt")`, whose
`CalledProcessError` on failure is caught by nothing; then the child is
replaced with (or initialized to) a `--no-device` instance as the status
guards dictate, `status` becomes 0, and the cycle sleeps 3 seconds. -/
def absentBranch (s : St) (o : Obs) : Except LoopErr (St × List Action) :=
  if s.status = 2 && !o.umountOk then .error .umountFail
  else
    let a0 : List Action := if s.status = 2 then [.umount] else []
    let r : List Action × Int :=
      if s.status ≠ 0 then restart_child (some s.gui) ["--no-device"] o.pidExists o.newPid
      else if s.gui = -1 then restart_child none ["--no-device"] o.pidExists o.newPid
      else ([], s.gui)
    .ok (⟨0, r.2⟩, a0 ++ r.1 ++ [.sleepSec 3])

/-- The actions of the `try: __mount__(part, "/mnt") ...` block of source
lines 238-245: the mount invocation itself, then the handler for the outcome
(`OSError` for "does not exist", bare `Exception` for "already mounted"). -/
def mountActsOf (pt : String) (o : Obs) : List Action :=
  .mountCall pt "/mnt" ::
    (match mountOutcome o.mountErr with
     | .vanished => [.logMsg "Drive not mountable.", .sleepSec 3]
     | .alreadyMounted => [.logMsg "Drive already mounted."]
     | .success => [])

/-- Source lines 236-250: the device is listed but its mount point is not
`/mnt`.  After the mount attempt, when `os.listdir("/mnt")` is empty the child
is unconditionally replaced with a `--setup` instance (no status or sentinel
guard); `status` becomes 1. -/
def unmountedBranch (pt : String) (s : St) (o : Obs) :
    Except LoopErr (St × List Action) :=
  let r : List Action × Int :=
    if o.mntListing = [] then
      let rc := restart_child (some s.gui) ["--setup"] o.pidExists o.newPid
      (rc.1 ++ [.sleepSec 1], rc.2)
    else ([], s.gui)
  .ok (⟨1, r.2⟩, mountActsOf pt o ++ r.1)

/-- Source lines 251-261: the device is mounted at `/mnt`.  A sentinel
`GUI_pid` means first launch (`Popen(sys.argv + ["--no-fork"])`); a stale
status means the child is replaced with a flagless instance; otherwise the
cycle just sleeps 2 seconds. -/
def mountedBranch (s : St) (o : Obs) : Except LoopErr (St × List Action) :=
  if s.gui = -1 then
    .ok (⟨2, o.newPid⟩, [.spawn (sysArgv ++ ["--no-fork"]) o.newPid])
  else if s.status ≠ 2 then
    let rc := restart_child (some s.gui) [] o.pidExists o.newPid
    .ok (⟨2, rc.2⟩, rc.1)
  else .ok (s, [.sleepSec 2])

/-- One iteration of the supervisor `while True:` loop (source lines
214-261), for target device path `pt` (the module-level `part`). -/
def step (pt : String) (s : St) (o : Obs) : Except LoopErr (St × List Action) :=
  match o.lsblk with
  | .error _ => .error .enumFail
  | .ok devs =>
    match findDev devs pt with
    | none => absentBranch s o
    | some d =>
      if d.mountpoint = some "/mnt" then mountedBranch s o
      else unmountedBranch pt s o

/-- The actions of a cycle (empty when the cycle dies with an exception). -/
def stepActs (pt : String) (s : St) (o : Obs) : List Action :=
  match step pt s o with
  | .ok (_, a) => a
  | .error _ => []

/-- The next state of a cycle, when the cycle survives. -/
def stepState (pt : String) (s : St) (o : Obs) : Option St :=
  match step pt s o with
  | .ok (n, _) => some n
  | .error _ => none

/-- The command lists passed to `subprocess.Popen` during a cycle. -/
def spawnCmds : List Action → List (List String)
  | [] => []
  | .spawn c _ :: t => c :: spawnCmds t
  | _ :: t => spawnCmds t

/-- Whether any child process is spawned among the actions. -/
def hasSpawn (l : List Action) : Bool :=
  l.any (fun a => match a with | .spawn _ _ => true | _ => false)

/-- Whether any `os.kill` happens among the actions. -/
def hasKill (l : List Action) : Bool :=
  l.any (fun a => match a with | .kill _ _ => true | _ => false)

/-- The kill and spawn actions of a cycle, in order. -/
def childActs (l : List Action) : List Action :=
  l.filter (fun a =>
    match a with
    | .kill _ _ => true
    | .spawn _ _ => true
    | _ => false)

/-- The observation classifies as "device not attached" (the `index == -1`
test of source line 224). -/
def absentObs (pt : String) (o : Obs) : Bool :=
  match o.lsblk with
  | .error _ => false
  | .ok devs => (findDev devs pt).isNone

/-- The observation classifies as "attached but not mounted at /mnt"
(source line 236). -/
def unmountedObs (pt : String) (o : Obs) : Bool :=
  match o.lsblk with
  | .error _ => false
  | .ok devs =>
    match findDev devs pt with
    | none => false
    | some d => !(d.mountpoint == some "/mnt")

/-- The observation classifies as "attached and mounted at /mnt". -/
def mountedObs (pt : String) (o : Obs) : Bool :=
  match o.lsblk with
  | .error _ => false
  | .ok devs =>
    match findDev devs pt with
    | none => false
    | some d => d.mountpoint == some "/mnt"

/-- Replace the mount diagnostic text of an observation. -/
def setMountErr (o : Obs) (e : String) : Obs :=
  ⟨o.lsblk, e, o.umountOk, o.mntListing, o.pidExists, o.newPid⟩

/-! ## Branch selection lemmas for `step` -/

/-- When the device is absent from the listing, a cycle runs the
not-attached handler. -/
theorem step_absent (pt : String) (s : St) (o : Obs)
    (h : absentObs pt o = true) : step pt s o = absentBranch s o := by
  unfold step
  unfold absentObs at h
  cases hl : o.lsblk with
  | error e => rw [hl] at h; simp at h
  | ok devs =>
    rw [hl] at h
    simp only [Option.isNone_iff_eq_none] at h
    dsimp only
    rw [h]

/-- When the device is listed with a mount point other than `/mnt`, a cycle
runs the attached-but-unmounted handler. -/
theorem step_unmounted (pt : String) (s : St) (o : Obs)
    (h : unmountedObs pt o = true) : step pt s o = unmountedBranch pt s o := by
  unfold step
  unfold unmountedObs at h
  cases hl : o.lsblk with
  | error e => rw [hl] at h; simp at h
  | ok devs =>
    rw [hl] at h
    dsimp only at h ⊢
    cases hf : findDev devs pt with
    | none => rw [hf] at h; simp at h
    | some d =>
      rw [hf] at h
      simp only [Bool.not_eq_true', beq_eq_false_iff_ne, ne_eq] at h
      dsimp only
      rw [if_neg h]

/-- When the device is listed as mounted at `/mnt`, a cycle runs the mounted
handler. -/
theorem step_mounted (pt : String) (s : St) (o : Obs)
    (h : mountedObs pt o = true) : step pt s o = mountedBranch s o := by
  unfold step
  unfold mountedObs at h
  cases hl : o.lsblk with
  | error e => rw [hl] at h; simp at h
  | ok devs =>
    rw [hl] at h
    dsimp only at h ⊢
    cases hf : findDev devs pt with
    | none => rw [hf] at h; simp at h
    | some d =>
      rw [hf] at h
      simp only [beq_iff_eq] at h
      dsimp only
      rw [if_pos h]

/-! ## Shape lemmas for the three handlers -/

/-- In the not-attached handler, with `status = 0` and a non-sentinel child
pid, the cycle only sleeps: nothing is killed, spawned, or unmounted. -/
theorem absentBranch_quiet (s : St) (o : Obs) (h0 : s.status = 0)
    (hg : ¬ s.gui = -1) :
    absentBranch s o = .ok (⟨0, s.gui⟩, [.sleepSec 3]) := by
  simp [absentBranch, h0, hg]

/-- Any surviving run of the not-attached handler leaves `status = 0` and a
non-sentinel pid (assuming spawned pids are positive). -/
theorem absentBranch_next (s : St) (o : Obs) (n : St) (a : List Action)
    (hp : 0 < o.newPid) (h : absentBranch s o = .ok (n, a)) :
    n.status = 0 ∧ ¬ n.gui = -1 := by
  have hnp : ¬ o.newPid = -1 := by omega
  simp only [absentBranch, restart_child] at h
  split_ifs at h <;>
    simp only [Except.ok.injEq, Prod.mk.injEq] at h <;>
    obtain ⟨hn, -⟩ := h <;> subst hn <;> simp_all

/-- In the mounted handler, with `status = 2` and a non-sentinel child pid,
the cycle only sleeps. -/
theorem mountedBranch_quiet (s : St) (o : Obs) (h2 : s.status = 2)
    (hg : ¬ s.gui = -1) :
    mountedBranch s o = .ok (s, [.sleepSec 2]) := by
  simp [mountedBranch, h2, hg]

/-- Any run of the mounted handler leaves `status = 2` and a non-sentinel pid
(assuming spawned pids are positive). -/
theorem mountedBranch_next (s : St) (o : Obs) (n : St) (a : List Action)
    (hp : 0 < o.newPid) (h : mountedBranch s o = .ok (n, a)) :
    n.status = 2 ∧ ¬ n.gui = -1 := by
  have hnp : ¬ o.newPid = -1 := by omega
  simp only [mountedBranch, restart_child] at h
  split_ifs at h <;>
    simp only [Except.ok.injEq, Prod.mk.injEq] at h <;>
    obtain ⟨hn, -⟩ := h <;> subst hn <;> simp_all

/-- When `os.listdir("/mnt")` is non-empty, the attached-but-unmounted
handler performs only the mount attempt and its logging: no kill, no spawn,
state `⟨1, s.gui⟩`. -/
theorem unmountedBranch_nonempty (pt : String) (s : St) (o : Obs)
    (hne : ¬ o.mntListing = []) :
    unmountedBranch pt s o = .ok (⟨1, s.gui⟩, mountActsOf pt o) := by
  simp [unmountedBranch, hne]

/-- The mount attempt and its exception handlers never kill or spawn. -/
theorem mountActsOf_no_child (pt : String) (o : Obs) :
    hasSpawn (mountActsOf pt o) = false ∧ hasKill (mountActsOf pt o) = false := by
  unfold mountActsOf hasSpawn hasKill
  cases h : mountOutcome o.mountErr <;> simp

/-! ## Action-list computations -/

theorem spawnCmds_append (l1 l2 : List Action) :
    spawnCmds (l1 ++ l2) = spawnCmds l1 ++ spawnCmds l2 := by
  induction l1 with
  | nil => rfl
  | cons x t ih => cases x <;> simp [spawnCmds, ih]

theorem childActs_append (l1 l2 : List Action) :
    childActs (l1 ++ l2) = childActs l1 ++ childActs l2 := by
  simp [childActs]

/-- The only `Popen` of `restart_child` receives `[argv0, "--no-fork"]`
followed by the options. -/
theorem restart_child_spawnCmds (p : Option Int) (opts : List String)
    (pe : Bool) (np : Int) :
    spawnCmds (restart_child p opts pe np).1 = [[argv0, "--no-fork"] ++ opts] := by
  cases p <;> cases pe <;> rfl

/-- The pid `restart_child` records is the pid of the spawned replacement. -/
theorem restart_child_snd (p : Option Int) (opts : List String)
    (pe : Bool) (np : Int) :
    (restart_child p opts pe np).2 = np := rfl

/-- The mount attempt and its handlers spawn nothing. -/
theorem mountActsOf_spawnCmds (pt : String) (o : Obs) :
    spawnCmds (mountActsOf pt o) = [] := by
  cases h : mountOutcome o.mountErr <;> simp [mountActsOf, h, spawnCmds]

/-- The mount attempt and its handlers kill and spawn nothing. -/
theorem mountActsOf_childActs (pt : String) (o : Obs) :
    childActs (mountActsOf pt o) = [] := by
  cases h : mountOutcome o.mountErr <;> simp [mountActsOf, h, childActs]

/-- Next state of a cycle that runs the attached-but-unmounted handler:
`status` becomes 1, and the child pid is replaced exactly when
`os.listdir("/mnt")` was empty. -/
theorem stepState_unmounted (pt : String) (s : St) (o : Obs)
    (h : unmountedObs pt o = true) :
    stepState pt s o =
      some ⟨1, if o.mntListing = [] then o.newPid else s.gui⟩ := by
  unfold stepState
  rw [step_unmounted pt s o h]
  unfold unmountedBranch
  by_cases he : o.mntListing = [] <;> simp [he, restart_child_snd]

/-- Actions of a cycle that runs the attached-but-unmounted handler. -/
theorem stepActs_unmounted (pt : String) (s : St) (o : Obs)
    (h : unmountedObs pt o = true) :
    stepActs pt s o = mountActsOf pt o ++
      (if o.mntListing = [] then
        (restart_child (some s.gui) ["--setup"] o.pidExists o.newPid).1 ++
          [.sleepSec 1]
       else []) := by
  unfold stepActs
  rw [step_unmounted pt s o h]
  unfold unmountedBranch
  by_cases he : o.mntListing = [] <;> simp [he]

/-! ## Concrete observations used in counterexamples and witnesses -/

/-- Device absent, everything else healthy; a spawn would return pid 5. -/
def oAbsent : Obs := ⟨.ok [], "", true, [], true, 5⟩

/-- `lsblk` cannot be invoked (or its output cannot be parsed). -/
def oEnumFail : Obs := ⟨.error (), "", true, [], true, 5⟩

/-- Device absent and `sudo umount /mnt` exits non-zero. -/
def oAbsentUmountFail : Obs := ⟨.ok [], "", false, [], true, 5⟩

/-- Device absent (another device is listed) and umount fails. -/
def oAbsentUmountFail2 : Obs :=
  ⟨.ok [⟨"/dev/sda1", some "/"⟩], "", false, ["pics"], true, 8⟩

/-- Target device listed but unmounted, mount prints no recognized
diagnostic, `/mnt` lists empty; a spawn would return pid 7. -/
def oUnmountedEmpty : Obs := ⟨.ok [⟨defaultPart, none⟩], "", true, [], true, 7⟩

/-- First-boot shape of `oUnmountedEmpty` (spawned pid would be 5). -/
def oFirstBoot : Obs := ⟨.ok [⟨defaultPart, none⟩], "", true, [], true, 5⟩

/-- Target device listed but unmounted, mount reporting "does not exist",
`/mnt` listing empty. -/
def oVanEmpty : Obs :=
  ⟨.ok [⟨defaultPart, none⟩],
    "mount: special device /dev/sde1 does not exist", true, [], true, 7⟩

/-- Target device listed but unmounted, mount reporting "already mounted",
`/mnt` listing non-empty. -/
def oAlready : Obs :=
  ⟨.ok [⟨defaultPart, none⟩],
    "mount: /dev/sde1 already mounted on /mnt.", true, ["pics"], true, 7⟩

/-- Target device mounted at `/mnt`. -/
def oMounted : Obs := ⟨.ok [⟨defaultPart, some "/mnt"⟩], "", true, ["x"], true, 9⟩

/-! ## Per-handler spawn-command characterizations -/

/-- Commands spawned by the not-attached handler: a `--no-device` child
exactly when the status was non-zero or no child was launched yet. -/
theorem absentBranch_spawnCmds (s : St) (o : Obs) (n : St) (a : List Action)
    (h : absentBranch s o = .ok (n, a)) :
    spawnCmds a = if s.status ≠ 0 ∨ s.gui = -1
      then [[argv0, "--no-fork", "--no-device"]] else [] := by
  have e1 : spawnCmds [Action.umount] = [] := rfl
  have e2 : spawnCmds ([] : List Action) = [] := rfl
  have e3 : spawnCmds [Action.sleepSec 3] = [] := rfl
  simp only [absentBranch] at h
  split_ifs at h with hA hB hC hD <;> cases h <;>
    simp_all [spawnCmds_append, restart_child_spawnCmds, e1, e2, e3, spawnCmds]

/-- Commands spawned by the attached-but-unmounted handler: a `--setup`
child exactly when `os.listdir("/mnt")` was empty. -/
theorem unmountedBranch_spawnCmds (pt : String) (s : St) (o : Obs) (n : St)
    (a : List Action) (h : unmountedBranch pt s o = .ok (n, a)) :
    spawnCmds a = if o.mntListing = []
      then [[argv0, "--no-fork", "--setup"]] else [] := by
  have e1 : spawnCmds [Action.sleepSec 1] = [] := rfl
  have e2 : spawnCmds ([] : List Action) = [] := rfl
  simp only [unmountedBranch] at h
  split_ifs at h with he <;> cases h <;>
    simp_all [spawnCmds_append, restart_child_spawnCmds,
      mountActsOf_spawnCmds, e1, e2, spawnCmds] <;>
    cases mountOutcome o.mountErr <;> simp [spawnCmds]

/-- Commands spawned by the mounted handler: a flagless child (only
`--no-fork`) exactly when no child is recorded or status is stale, and
regardless of what the drive contains. -/
theorem mountedBranch_spawnCmds (s : St) (o : Obs) (n : St) (a : List Action)
    (h : mountedBranch s o = .ok (n, a)) :
    spawnCmds a = if s.gui = -1 ∨ s.status ≠ 2
      then [[argv0, "--no-fork"]] else [] := by
  have e1 : spawnCmds [Action.spawn (sysArgv ++ ["--no-fork"]) o.newPid] =
      [sysArgv ++ ["--no-fork"]] := rfl
  have e2 : spawnCmds [Action.sleepSec 2] = [] := rfl
  simp only [mountedBranch] at h
  split_ifs at h with h1 h2 <;> cases h <;>
    simp_all [restart_child_spawnCmds, e1, e2, sysArgv, spawnCmds]

/-! ## Claim C3 -/

/-- C3 counterexample: when the block-device enumeration fails, the very
first cycle does not classify the state as `Absent` and continue — the
exception escapes the loop and the supervisor dies. -/
theorem c3_counterexample :
    step defaultPart ⟨0, -1⟩ oEnumFail = .error .enumFail := rfl

/-- C3 (amended): a failure to invoke or parse the block-device enumeration
is caught by nothing: the exception propagates out of the loop body and the
supervisor terminates, with no `Absent` classification, no distinct log
entry, and no next cycle. -/
theorem c3_enum_failure_propagates (pt : String) (s : St) (o : Obs)
    (h : o.lsblk = .error ()) : step pt s o = .error .enumFail := by
  unfold step
  rw [h]

/-- Witness for C3 at a concrete input. -/
theorem c3_enum_failure_propagates_witness :
    step defaultPart ⟨2, 9⟩ ⟨.error (), "x", false, ["a"], false, 4⟩ =
      .error .enumFail :=
  c3_enum_failure_propagates defaultPart ⟨2, 9⟩ _ rfl

/-! ## Claim C2 -/

/-- C2 counterexample: with a mounted state (`status = 2`) and the device
gone, a failing `sudo umount /mnt` makes `subprocess.check_call` raise; the
exception is not caught and not logged, and the supervisor terminates instead
of continuing to the next cycle. -/
theorem c2_counterexample :
    step defaultPart ⟨2, 5⟩ oAbsentUmountFail = .error .umountFail := rfl

/-- C2 (amended): `__umount__` uses `subprocess.check_call`, so when the
supervisor transitions away from a mounted state and the unmount fails, a
`CalledProcessError` propagates out of the supervisor loop and terminates it;
the failure is neither caught nor logged. -/
theorem c2_umount_failure_propagates (pt : String) (s : St) (o : Obs)
    (h2 : s.status = 2) (ha : absentObs pt o = true)
    (hu : o.umountOk = false) :
    step pt s o = .error .umountFail := by
  rw [step_absent pt s o ha]
  simp [absentBranch, h2, hu]

/-- Witness for C2 at a concrete input. -/
theorem c2_umount_failure_propagates_witness :
    step defaultPart ⟨2, 9⟩ oAbsentUmountFail2 = .error .umountFail :=
  c2_umount_failure_propagates defaultPart ⟨2, 9⟩ oAbsentUmountFail2 rfl
    (by decide) rfl

/-! ## Claim C9 -/

/-- C9: the sentinel `-1` reaches `os.kill`.  On the very first cycle
(`status = 0`, `GUI_pid = -1`), if the device is listed but not mounted at
`/mnt` and `/mnt` lists empty, line 247 calls `restart_child(GUI_pid,
"--setup")` with `GUI_pid = -1`, and `restart_child` executes
`os.kill(-1, 15)` — signalling every process the user may signal.  The claim
that `-1` is never passed to the kill operation is right about the intent
(the other two handlers guard the sentinel) and wrong about this code path. -/
theorem c9_kill_sentinel :
    Action.kill (-1) 15 ∈ stepActs defaultPart ⟨0, -1⟩ oFirstBoot ∧
    stepState defaultPart ⟨0, -1⟩ oFirstBoot = some ⟨1, 5⟩ := by
  constructor
  · decide
  · rfl

/-! ## Claim C1 -/

/-- C1 counterexample: with the device attached-but-unmounted and `/mnt`
listing empty, the observations of two consecutive cycles are identical
(`oUnmountedEmpty` both times) and the classified state is unchanged
(`⟨1, 7⟩` both times), yet the second cycle still kills the running child and
spawns a new one — `restart_child(GUI_pid, "--setup")` at source line 247 has
no guard on `status` or on the previously launched state. -/
theorem c1_counterexample :
    stepState defaultPart ⟨1, 6⟩ oUnmountedEmpty = some ⟨1, 7⟩ ∧
    stepState defaultPart ⟨1, 7⟩ oUnmountedEmpty = some ⟨1, 7⟩ ∧
    hasSpawn (stepActs defaultPart ⟨1, 7⟩ oUnmountedEmpty) = true ∧
    hasKill (stepActs defaultPart ⟨1, 7⟩ oUnmountedEmpty) = true :=
  ⟨rfl, rfl, rfl, rfl⟩

/-- C1 (amended): child replacement is idempotent except in the
attached-but-unmounted branch with an empty mount-point listing.  For every
cycle that is not in that branch, observing the same observations on the next
cycle neither spawns a new child nor sends any termination signal, and leaves
the state unchanged. -/
theorem c1_second_cycle_quiescent (pt : String) (s : St) (o : Obs)
    (hp : 0 < o.newPid)
    (hx : ¬ (unmountedObs pt o = true ∧ o.mntListing = []))
    (s1 : St) (a1 : List Action) (h1 : step pt s o = .ok (s1, a1))
    (s2 : St) (a2 : List Action) (h2 : step pt s1 o = .ok (s2, a2)) :
    hasSpawn a2 = false ∧ hasKill a2 = false ∧ s2 = s1 := by
  cases hl : o.lsblk with
  | error e =>
    unfold step at h1
    rw [hl] at h1
    simp at h1
  | ok devs =>
    cases hf : findDev devs pt with
    | none =>
      have ha : absentObs pt o = true := by simp [absentObs, hl, hf]
      rw [step_absent pt s o ha] at h1
      rw [step_absent pt s1 o ha] at h2
      obtain ⟨h0, hg⟩ := absentBranch_next s o s1 a1 hp h1
      rw [absentBranch_quiet s1 o h0 hg] at h2
      simp only [Except.ok.injEq, Prod.mk.injEq] at h2
      obtain ⟨hs, hact⟩ := h2
      subst hact
      refine ⟨rfl, rfl, ?_⟩
      rw [← hs]
      obtain ⟨st, g⟩ := s1
      have h0b : st = 0 := by simpa using h0
      simp only [St.mk.injEq]
      exact ⟨h0b.symm, trivial⟩
    | some d =>
      by_cases hm : d.mountpoint = some "/mnt"
      · have hmo : mountedObs pt o = true := by simp [mountedObs, hl, hf, hm]
        rw [step_mounted pt s o hmo] at h1
        rw [step_mounted pt s1 o hmo] at h2
        obtain ⟨h2s, hg⟩ := mountedBranch_next s o s1 a1 hp h1
        rw [mountedBranch_quiet s1 o h2s hg] at h2
        simp only [Except.ok.injEq, Prod.mk.injEq] at h2
        obtain ⟨hs, hact⟩ := h2
        subst hact
        exact ⟨rfl, rfl, hs.symm⟩
      · have huo : unmountedObs pt o = true := by
          simp [unmountedObs, hl, hf, hm]
        have hne : ¬ o.mntListing = [] := fun hc => hx ⟨huo, hc⟩
        rw [step_unmounted pt s o huo] at h1
        rw [step_unmounted pt s1 o huo] at h2
        rw [unmountedBranch_nonempty pt s o hne] at h1
        rw [unmountedBranch_nonempty pt s1 o hne] at h2
        simp only [Except.ok.injEq, Prod.mk.injEq] at h1 h2
        obtain ⟨hs1, -⟩ := h1
        obtain ⟨hs2, hact⟩ := h2
        subst hact
        obtain ⟨hA, hB⟩ := mountActsOf_no_child pt o
        subst hs1
        subst hs2
        exact ⟨hA, hB, rfl⟩

/-- Witness for C1's quiescence at a concrete input: device absent twice in a
row; the first cycle initializes the child (pid 5), the second only sleeps. -/
theorem c1_second_cycle_quiescent_witness :
    hasSpawn [Action.sleepSec 3] = false ∧
    hasKill [Action.sleepSec 3] = false ∧
    (⟨0, 5⟩ : St) = ⟨0, 5⟩ :=
  c1_second_cycle_quiescent defaultPart ⟨0, -1⟩ oAbsent (by decide)
    (by decide)
    ⟨0, 5⟩
    [Action.logCmd [argv0, "--no-fork", "--no-device"],
      Action.spawn [argv0, "--no-fork", "--no-device"] 5, Action.sleepSec 3]
    (by rfl)
    ⟨0, 5⟩ [Action.sleepSec 3] (by rfl)

/-! ## Claim C4 -/

/-- C4 counterexample, two parts.  First: with the mount diagnostic reading
"does not exist" and `/mnt` listing empty, the same cycle spawns a `--setup`
child (the claim says no setup-mode child is spawned until the device is
re-observed).  Second: a diagnostic containing both "already mounted" and
"does not exist" does not fail with `DeviceVanished` — the "already mounted"
test at source line 170 fires first. -/
theorem c4_counterexample :
    Action.spawn [argv0, "--no-fork", "--setup"] 7 ∈
      stepActs defaultPart ⟨1, 5⟩ oVanEmpty ∧
    mountOutcome "mount: /dev/sde1 already mounted; does not exist" =
      .alreadyMounted := by
  constructor
  · decide
  · rfl

/-- C4 (amended): for every mount attempt whose diagnostic contains
"does not exist" and not "already mounted", `__mount__` raises `OSError`
(`DeviceVanished`) and the classified state remains attached-but-unmounted
(`status = 1`, never advanced to the mounted status); however, in that same
cycle a `--setup` child is spawned when the mount-point directory listing is
empty (and no child is killed or spawned when it is not). -/
theorem c4_vanished_stays_unmounted (pt : String) (s : St) (o : Obs)
    (hun : unmountedObs pt o = true)
    (hdne : strContains o.mountErr "does not exist" = true)
    (ham : strContains o.mountErr "already mounted" = false) :
    mountOutcome o.mountErr = .vanished ∧
    stepState pt s o =
      some ⟨1, if o.mntListing = [] then o.newPid else s.gui⟩ ∧
    (o.mntListing = [] →
      spawnCmds (stepActs pt s o) = [[argv0, "--no-fork", "--setup"]]) ∧
    (¬ o.mntListing = [] → childActs (stepActs pt s o) = []) := by
  have hmo : mountOutcome o.mountErr = .vanished := by
    unfold mountOutcome
    rw [ham, hdne]
    rfl
  refine ⟨hmo, stepState_unmounted pt s o hun, ?_, ?_⟩
  · intro he
    rw [stepActs_unmounted pt s o hun, if_pos he, spawnCmds_append,
      mountActsOf_spawnCmds, spawnCmds_append, restart_child_spawnCmds]
    rfl
  · intro he
    rw [stepActs_unmounted pt s o hun, if_neg he, childActs_append,
      mountActsOf_childActs]
    rfl

/-- Witness for C4 at a concrete input: the "does not exist" diagnostic with
an empty mount-point listing yields a `--setup` spawn. -/
theorem c4_vanished_stays_unmounted_witness :
    spawnCmds (stepActs defaultPart ⟨1, 5⟩ oVanEmpty) =
      [[argv0, "--no-fork", "--setup"]] :=
  (c4_vanished_stays_unmounted defaultPart ⟨1, 5⟩ oVanEmpty (by decide)
    (by decide) (by decide)).2.2.1 rfl

/-! ## Claim C5 -/

/-- C5: a mount diagnostic containing "already mounted" is treated as
success: `__mount__` raises the bare `Exception` (the `AlreadyMounted`
signal, not the `OSError`/`MountFailed` one), the loop logs
"Drive already mounted." and not "Drive not mountable.", and the rest of the
cycle — next state and all kill/spawn actions — is identical to a cycle whose
mount produced no diagnostic at all. -/
theorem c5_already_mounted_success (pt : String) (s : St) (o : Obs)
    (hun : unmountedObs pt o = true)
    (ham : strContains o.mountErr "already mounted" = true) :
    mountOutcome o.mountErr = .alreadyMounted ∧
    stepState pt s o = stepState pt s (setMountErr o "") ∧
    childActs (stepActs pt s o) = childActs (stepActs pt s (setMountErr o "")) ∧
    Action.logMsg "Drive already mounted." ∈ mountActsOf pt o ∧
    Action.logMsg "Drive not mountable." ∉ mountActsOf pt o := by
  have hmo : mountOutcome o.mountErr = .alreadyMounted := by
    unfold mountOutcome
    rw [ham]
    rfl
  have hun2 : unmountedObs pt (setMountErr o "") = true := hun
  refine ⟨hmo, ?_, ?_, ?_, ?_⟩
  · rw [stepState_unmounted pt s o hun,
      stepState_unmounted pt s (setMountErr o "") hun2]
    rfl
  · rw [stepActs_unmounted pt s o hun,
      stepActs_unmounted pt s (setMountErr o "") hun2,
      childActs_append, childActs_append, mountActsOf_childActs,
      mountActsOf_childActs]
    rfl
  · unfold mountActsOf
    rw [hmo]
    simp
  · unfold mountActsOf
    rw [hmo]
    simp

/-- Witness for C5 at a concrete input. -/
theorem c5_already_mounted_success_witness :
    mountOutcome oAlready.mountErr = .alreadyMounted :=
  (c5_already_mounted_success defaultPart ⟨1, 5⟩ oAlready (by decide)
    (by decide)).1

/-! ## Claim C6 -/

/-- C6 counterexample: in the attached-but-unmounted situation with `/mnt`
listing empty the supervisor spawns a `--setup` child, not the `--no-device`
child the claimed mapping assigns to `AttachedUnmounted`; and in the mounted
situation it always spawns a flagless child, so no `--setup` child is ever
spawned by the supervisor for a mounted drive that needs setup. -/
theorem c6_counterexample :
    spawnCmds (stepActs defaultPart ⟨1, 5⟩ oUnmountedEmpty) =
      [[argv0, "--no-fork", "--setup"]] ∧
    spawnCmds (stepActs defaultPart ⟨1, 6⟩ oMounted) =
      [[argv0, "--no-fork"]] := by
  constructor
  · rfl
  · rfl

/-- C6 (amended): the supervisor's spawn flags are a function of the branch,
not of the five-state classification: the not-attached branch spawns
`--no-device` children (exactly when status was non-zero or no child exists
yet); the attached-but-unmounted branch spawns a `--setup` child exactly when
the mount-point listing is empty; the mounted branch spawns a flagless child
(exactly when no child exists or status is stale) regardless of drive
content — the setup/empty distinction is made by the child itself. -/
theorem c6_spawn_flag_mapping (pt : String) (s : St) (o : Obs) (n : St)
    (a : List Action) (h : step pt s o = .ok (n, a)) :
    (absentObs pt o = true →
      spawnCmds a = if s.status ≠ 0 ∨ s.gui = -1
        then [[argv0, "--no-fork", "--no-device"]] else []) ∧
    (unmountedObs pt o = true →
      spawnCmds a = if o.mntListing = []
        then [[argv0, "--no-fork", "--setup"]] else []) ∧
    (mountedObs pt o = true →
      spawnCmds a = if s.gui = -1 ∨ s.status ≠ 2
        then [[argv0, "--no-fork"]] else []) := by
  refine ⟨?_, ?_, ?_⟩
  · intro hb
    rw [step_absent pt s o hb] at h
    exact absentBranch_spawnCmds s o n a h
  · intro hb
    rw [step_unmounted pt s o hb] at h
    exact unmountedBranch_spawnCmds pt s o n a h
  · intro hb
    rw [step_mounted pt s o hb] at h
    exact mountedBranch_spawnCmds s o n a h

/-- Witness for C6 at a concrete input: first launch with the device absent
spawns the `--no-device` child. -/
theorem c6_spawn_flag_mapping_witness :
    spawnCmds [Action.logCmd [argv0, "--no-fork", "--no-device"],
      Action.spawn [argv0, "--no-fork", "--no-device"] 5, Action.sleepSec 3] =
      [[argv0, "--no-fork", "--no-device"]] := by
  have h := (c6_spawn_flag_mapping defaultPart ⟨0, -1⟩ oAbsent ⟨0, 5⟩
    [Action.logCmd [argv0, "--no-fork", "--no-device"],
      Action.spawn [argv0, "--no-fork", "--no-device"] 5, Action.sleepSec 3]
    (by rfl)).1 (by decide)
  simpa using h

/-- The line-472 comparison holds exactly when more than four of the six
expected items are missing. -/
theorem needsSetup_iff_missing (ls : List String) (settingsExists : Bool) :
    needsSetup ls settingsExists = true ↔
      4 < specMissingItems ls settingsExists := by
  unfold needsSetup setupTotal specMissingItems
  rw [List.countP_eq_length_filter]
  constructor
  · intro h
    have h5 := of_decide_eq_true h
    omega
  · intro h
    exact decide_eq_true (by omega)

/-! ## Claim C8 -/

/-- C8 counterexample: a configuration file that is present and decodable but
is the empty JSON object `{}` makes startup raise an uncaught `KeyError`
(source line 67, `settings["part"]`), terminating the program instead of
falling back to the defaults. -/
theorem c8_counterexample :
    loadSettings (.valid none none) .missing = .error .keyErr := rfl

/-- C8 (amended): configuration loading falls back to the hard-coded defaults
whenever the settings files are absent or not decodable as JSON; but a
decodable configuration object missing the `"part"` or `"logfile"` key raises
an uncaught `KeyError` and terminates startup. -/
theorem c8_config_fallback (loc : ConfFile) :
    loadSettings .missing .missing = .ok (defaultPart, defaultLog) ∧
    loadSettings .badJson loc = .ok (defaultPart, defaultLog) ∧
    loadSettings .missing .badJson = .ok (defaultPart, defaultLog) ∧
    (∀ l : Option String,
      loadSettings (.valid none l) loc = .error .keyErr) ∧
    (∀ pv : String,
      loadSettings (.valid (some pv) none) loc = .error .keyErr) := by
  refine ⟨rfl, rfl, rfl, ?_, ?_⟩
  · intro l; cases l <;> rfl
  · intro pv; rfl

/-- Witness for C8 at a concrete input. -/
theorem c8_config_fallback_witness :
    loadSettings .missing .missing = .ok (defaultPart, defaultLog) :=
  (c8_config_fallback .missing).1

/-! ## `index_folder` (source lines 132-157)

`index_folder` scans the five rating-bucket directories found in the folder's
top-level listing, filters each bucket's listing in place (deleting
subdirectories and non-image names while iterating with `enumerate`, which
can skip entries and even raise `IndexError` when the second `del` runs past
the shortened list), deletes buckets whose lists ended up empty, and returns
the database together with the total count.  The filesystem is abstracted as
a pair of pure functions; the in-place deletion loop is embedded with an
explicit cursor `i` and a fuel argument (the loop runs at most
`lst.length + 1` times because the cursor grows each iteration and the list
never does); running out of fuel or hitting the `IndexError` yields `none`. -/

/-- The `file_types` tuple of source line 110. -/
def file_types : List String :=
  ["jpg", "jpeg", "jpe", "png", "svg", "gif", "tif", "tiff"]

/-- Python `name.split(".")[-1].lower()`: the text after the final dot (the
whole name when there is no dot), lower-cased. -/
def extOf (name : String) : String :=
  String.mk ((name.toList.reverse.takeWhile (fun c => c != '.')).reverse.map
    Char.toLower)

/-- Whether a name survives the extension test of source line 146. -/
def isImage (name : String) : Bool := file_types.contains (extOf name)

/-- An abstract filesystem: directory listings and the `os.path.isdir` test. -/
structure FS where
  listdir : String → List String
  isdir : String → Bool

/-- The in-place filtering loop of source lines 143-147 over one bucket's
listing.  Iteration `i` reads `x = lst[i]`; `del lst[i]` happens once when
`x` names a directory and once more when `x` fails the extension test — the
second `del` raises `IndexError` (`none`) when `i` already points past the
end of the shortened list. -/
def filterLoop (dirTest : String → Bool) (base : String) :
    Nat → List String → Nat → Option (List String)
  | 0, _, _ => none
  | fuel + 1, lst, i =>
    if h : i < lst.length then
      let x := lst.get ⟨i, h⟩
      let lst1 := if dirTest (base ++ "/" ++ x) then lst.eraseIdx i else lst
      if isImage x then
        filterLoop dirTest base fuel lst1 (i + 1)
      else
        if i < lst1.length then
          filterLoop dirTest base fuel (lst1.eraseIdx i) (i + 1)
        else none
    else some lst

/-- The filtering loop started at cursor 0 with sufficient fuel. -/
def pythonFilter (dirTest : String → Bool) (base : String)
    (lst : List String) : Option (List String) :=
  filterLoop dirTest base (lst.length + 1) lst 0

/-- The per-bucket loop of source lines 137-147: buckets present in the
top-level listing get their listing filtered (empty listings are skipped
before the filter), and an `IndexError` from the filter aborts the whole
call. -/
def collectBuckets (fs : FS) (folder : String) (top : List String) :
    List String → Option (List (String × List String))
  | [] => some []
  | b :: rest =>
    if top.contains b then
      let new := fs.listdir (folder ++ "/" ++ b)
      if new = [] then collectBuckets fs folder top rest
      else
        match pythonFilter fs.isdir (folder ++ "/" ++ b) new with
        | none => none
        | some filtered =>
          match collectBuckets fs folder top rest with
          | none => none
          | some db => some ((b, filtered) :: db)
    else collectBuckets fs folder top rest

/-- Return value of `index_folder`: the bucket database and the total count. -/
structure IdxResult where
  index : List (String × List String)
  size : Nat
  deriving DecidableEq, Repr

/-- `index_folder` (source lines 132-157): collect and filter the buckets,
delete the keys whose lists are empty (lines 148-153), and sum the remaining
lengths (lines 154-156). -/
def index_folder (fs : FS) (folder : String) : Option IdxResult :=
  match collectBuckets fs folder (fs.listdir folder) rating_buckets with
  | none => none
  | some db =>
    let db2 := db.filter (fun p => !(p.2.isEmpty))
    some ⟨db2, (db2.map (fun p => p.2.length)).sum⟩

/-- Every key `collectBuckets` emits comes from the bucket list it was
given. -/
theorem collectBuckets_keys (fs : FS) (folder : String) (top : List String) :
    ∀ (l : List String) (db : List (String × List String)),
      collectBuckets fs folder top l = some db →
      ∀ p ∈ db, p.1 ∈ l := by
  intro l
  induction l with
  | nil =>
    intro db h p hp
    simp only [collectBuckets, Option.some.injEq] at h
    subst h
    cases hp
  | cons b rest ih =>
    intro db h p hp
    simp only [collectBuckets] at h
    split_ifs at h with htop hnew
    · exact List.mem_cons_of_mem b (ih db h p hp)
    · cases hpf : pythonFilter fs.isdir (folder ++ "/" ++ b)
        (fs.listdir (folder ++ "/" ++ b)) with
      | none => rw [hpf] at h; cases h
      | some filtered =>
        rw [hpf] at h
        cases hrec : collectBuckets fs folder top rest with
        | none => rw [hrec] at h; cases h
        | some db2 =>
          rw [hrec] at h
          simp only [Option.some.injEq] at h
          subst h
          rcases List.mem_cons.mp hp with hp2 | hp2
          · subst hp2
            exact List.mem_cons_self b rest
          · exact List.mem_cons_of_mem b (ih db2 hrec p hp2)
    · exact List.mem_cons_of_mem b (ih db h p hp)

/-! ## Claim C10 -/

/-- C10: whenever `index_folder` returns, every bucket key in the returned
index maps to a non-empty list, every key is one of the five fixed
rating-bucket names, and the returned size equals the sum of the lengths of
all bucket lists. -/
theorem c10_index_folder_invariants (fs : FS) (folder : String)
    (r : IdxResult) (h : index_folder fs folder = some r) :
    (∀ p ∈ r.index, ¬ p.2 = [] ∧ p.1 ∈ rating_buckets) ∧
    r.size = (r.index.map (fun p => p.2.length)).sum := by
  unfold index_folder at h
  cases hc : collectBuckets fs folder (fs.listdir folder) rating_buckets with
  | none => rw [hc] at h; cases h
  | some db =>
    rw [hc] at h
    simp only [Option.some.injEq] at h
    subst h
    refine ⟨?_, rfl⟩
    intro p hp
    constructor
    · have hf := List.of_mem_filter hp
      simpa using hf
    · exact collectBuckets_keys fs folder (fs.listdir folder) rating_buckets
        db hc p (List.mem_of_mem_filter hp)

/-- A small concrete filesystem: `/mnt` holds the `x` bucket (two images)
and a stray file. -/
def fsW : FS :=
  ⟨fun s => if s = "/mnt" then ["x", "readme.txt"]
    else if s = "/mnt/x" then ["a.jpg", "b.png"] else [],
   fun _ => false⟩

/-- Witness for C10 at a concrete input. -/
theorem c10_index_folder_invariants_witness :
    (∀ p ∈ ([("x", ["a.jpg", "b.png"])] : List (String × List String)),
      ¬ p.2 = [] ∧ p.1 ∈ rating_buckets) ∧
    (2 : Nat) = (([("x", ["a.jpg", "b.png"])] :
      List (String × List String)).map (fun p => p.2.length)).sum :=
  c10_index_folder_invariants fsW "/mnt" ⟨[("x", ["a.jpg", "b.png"])], 2⟩
    (by rfl)

/-! ## Claim C7 -/

/-- A mounted drive holding only the `x` bucket with a single image: of the
six expected items, the four buckets `xx`..`xxxxx` and the settings file are
missing. -/
def fsC7 : FS :=
  ⟨fun s => if s = "/mnt" then ["x"]
    else if s = "/mnt/x" then ["a.jpg"] else [],
   fun _ => false⟩

/-- C7 counterexample: on `fsC7` the index reports size 1 and five of the
six expected items are missing (more than four), yet the guard
`index_main["size"] == 0` at source line 462 is false, so the threshold
check never runs and setup mode is not forced — the claimed "if and only
if" fails in the "if" direction. -/
theorem c7_counterexample :
    index_folder fsC7 "/mnt" = some ⟨[("x", ["a.jpg"])], 1⟩ ∧
    4 < specMissingItems ["x"] false ∧
    probeOverride 1 none ["x"] false = none := by
  refine ⟨rfl, by decide, rfl⟩

/-- C7 (amended): with no mode override already selected, the content probe
forces setup mode exactly when the content index reports zero items AND more
than four of the six expected items (the five rating-bucket directories and
the settings file) are missing; when the index is non-empty the threshold
check is skipped entirely and setup is never forced, and when the index is
empty but four or fewer items are missing the missing items are created
instead of forcing setup. -/
theorem c7_setup_threshold_guarded (sz : Nat) (ls : List String)
    (settingsExists : Bool) :
    probeOverride sz none ls settingsExists = some 3 ↔
      sz = 0 ∧ 4 < specMissingItems ls settingsExists := by
  unfold probeOverride
  split_ifs with h1 h2
  · simp [h1.1, (needsSetup_iff_missing ls settingsExists).mp h2]
  · constructor
    · intro hc
      cases hc
    · rintro ⟨-, hm⟩
      exact absurd ((needsSetup_iff_missing ls settingsExists).mpr hm) h2
  · have hs : ¬ sz = 0 := fun h => h1 ⟨h, rfl⟩
    constructor
    · intro hc
      cases hc
    · rintro ⟨h0, -⟩
      exact absurd h0 hs

/-- Witness for C7 at a concrete input: an empty index over a drive missing
five of the six items forces setup mode. -/
theorem c7_setup_threshold_guarded_witness :
    probeOverride 0 none ["x"] false = some 3 :=
  (c7_setup_threshold_guarded 0 ["x"] false).mpr ⟨rfl, by decide⟩

end PPF
